import Mathlib

/-!
Shallow embedding of the authentication and session core of
`src/proconnect_website/proconnect.py` (functions `hash_pw`, `check_pw`,
`session_create`, `session_get`, `signup`, `login`, `logout`).

Modelling conventions:
* Randomness (the salt from `secrets.token_hex(8)`, the session token from
  `secrets.token_urlsafe(32)`) and the wall-clock reads `int(time.time())`
  are lifted to explicit parameters.
* The SHA-256 hex digest from `hashlib` is an external library call; it is
  abstracted as a parameter `H : String → String` (digest of the input
  string).  The properties proved below hold for every such `H`.
* The SQLite tables `users` and `sessions` are modelled as lists of rows in
  insertion order; `fetchone()` on a `SELECT ... WHERE` is the first match
  in the list; `DELETE ... WHERE` is `List.filter`; an `INSERT` that would
  violate a `PRIMARY KEY` or `UNIQUE` constraint raises
  `sqlite3.IntegrityError`, modelled with `Option`/explicit branching.
* A Python exception escaping a function is modelled as `none` of an
  `Option` result.
-/

/-- Row of the `users` table:
`id INTEGER PRIMARY KEY, username TEXT UNIQUE, password TEXT, created_at INTEGER`. -/
structure User where
  id : Nat
  username : String
  password : String
  created_at : Int
  deriving Repr, DecidableEq

/-- Row of the `sessions` table:
`token TEXT PRIMARY KEY, user_id INTEGER, expires INTEGER`. -/
structure Session where
  token : String
  user_id : Nat
  expires : Int
  deriving Repr, DecidableEq

/-- The persistent store: the two tables the auth core touches. -/
structure DB where
  users : List User
  sessions : List Session
  deriving Repr, DecidableEq

/-- The dictionary `{'id': ..., 'username': ...}` returned by `session_get`. -/
structure Identity where
  id : Nat
  username : String
  deriving Repr, DecidableEq

/-- Python `hash_pw(pw)` with the random salt lifted to a parameter:
`salt + '$' + sha256((salt+pw).encode()).hexdigest()`. -/
def hash_pw (H : String → String) (salt pw : String) : String :=
  salt ++ "$" ++ H (salt ++ pw)

/-- Python `check_pw(pw, stored)`:
`salt, h = stored.split('$', 1)` then
`sha256((salt+pw).encode()).hexdigest() == h`.
`str.split('$', 1)` with no `'$'` in `stored` yields a one-element list and
the two-name unpacking raises `ValueError`; that exception is `none`. -/
def check_pw (H : String → String) (pw stored : String) : Option Bool :=
  let pre := stored.data.takeWhile (fun ch => ch != '$')
  match stored.data.dropWhile (fun ch => ch != '$') with
  | [] => none
  | _ :: rest => some (H (String.mk pre ++ pw) == String.mk rest)

/-- Python `str.strip()` with no argument: remove whitespace from both
ends of the string. -/
def strip (s : String) : String :=
  ⟨((s.data.dropWhile Char.isWhitespace).reverse.dropWhile Char.isWhitespace).reverse⟩

/-- The rowid SQLite assigns to `INSERT INTO users(username,password,created_at)`:
one more than the largest existing id (1 for an empty table). -/
def next_id (users : List User) : Nat :=
  (users.map User.id).foldr max 0 + 1

/-- Python `session_create(uid)` with the random token and the wall clock
lifted to parameters: `exp = int(time.time()) + 604800`, then
`INSERT INTO sessions VALUES (token, uid, exp)` and return the token.
A token colliding with an existing primary key raises
`sqlite3.IntegrityError`, modelled as `none`. -/
def session_create (token : String) (now : Int) (uid : Nat) (db : DB) :
    Option (String × DB) :=
  let exp := now + 604800
  if db.sessions.any (fun s => s.token == token) then none
  else some (token, { db with sessions := db.sessions ++ [⟨token, uid, exp⟩] })

/-- Python `session_get(tok)` with the wall clock lifted to a parameter.
`if not tok: return None` is true for `None` and for the empty string;
then the session row is looked up, an expired row (`exp < now`) is deleted
and `None` returned, and otherwise the user row is loaded, yielding
`{'id': u[0], 'username': u[1]}` when it exists and `None` when not.
The result pairs the returned value with the store after the call. -/
def session_get (now : Int) (tok : Option String) (db : DB) :
    Option Identity × DB :=
  match tok with
  | none => (none, db)
  | some t =>
    if t = "" then (none, db)
    else
      match db.sessions.find? (fun s => s.token == t) with
      | none => (none, db)
      | some s =>
        if s.expires < now then
          (none, { db with sessions := db.sessions.filter (fun r => r.token != t) })
        else
          match db.users.find? (fun u => u.id == s.user_id) with
          | none => (none, db)
          | some u => (some ⟨u.id, u.username⟩, db)

/-- Observable outcome of a POST to `/signup`. -/
inductive SignupResult where
  /-- The "All fields required." page. -/
  | fieldsRequired
  /-- The "Username taken." page (caught `sqlite3.IntegrityError`). -/
  | usernameTaken
  /-- Redirect to `/` with `Set-Cookie: session=<token>`. -/
  | redirectHome (token : String)
  deriving Repr, DecidableEq

/-- Python `signup` on a POST request, with the salt, session token and the
two wall-clock reads lifted to parameters.  The submitted username is
stripped; empty username or password short-circuits; inserting a duplicate
username raises `sqlite3.IntegrityError`, caught as "Username taken."
(the failed `INSERT` changes nothing); otherwise the user row is inserted,
its id read back by `SELECT id FROM users WHERE username=?`, and a session
created.  `none` models an uncaught exception. -/
def signup_post (H : String → String) (salt token : String) (nowU nowS : Int)
    (usernameIn pwIn : String) (db : DB) : Option (SignupResult × DB) :=
  let user := strip usernameIn
  let pw := pwIn
  if user = "" ∨ pw = "" then some (.fieldsRequired, db)
  else if db.users.any (fun u => u.username == user) then
    some (.usernameTaken, db)
  else
    let db1 : DB :=
      { db with users := db.users ++ [⟨next_id db.users, user, hash_pw H salt pw, nowU⟩] }
    match db1.users.find? (fun u => u.username == user) with
    | none => none
    | some u =>
      match session_create token nowS u.id db1 with
      | none => none
      | some (tok, db2) => some (.redirectHome tok, db2)

/-- Observable outcome of a POST to `/login`. -/
inductive LoginResult where
  /-- The "Invalid credentials." page. -/
  | invalidCredentials
  /-- Redirect to `/` with `Set-Cookie: session=<token>`. -/
  | redirectHome (token : String)
  deriving Repr, DecidableEq

/-- Python `login` on a POST request, with the session token and wall clock
lifted to parameters.  The user row is looked up by username;
`if r and check_pw(pw, r[1])` creates a session and redirects, and
otherwise the "Invalid credentials." page is returned.  A `ValueError`
escaping `check_pw`, or an `IntegrityError` from the token insert,
is `none`. -/
def login_post (H : String → String) (token : String) (now : Int)
    (username pw : String) (db : DB) : Option (LoginResult × DB) :=
  match db.users.find? (fun u => u.username == username) with
  | none => some (.invalidCredentials, db)
  | some u =>
    match check_pw H pw u.password with
    | none => none
    | some false => some (.invalidCredentials, db)
    | some true =>
      match session_create token now u.id db with
      | none => none
      | some (tok, db2) => some (.redirectHome tok, db2)

/-- Python `logout`: the session cookie value (absent cookie = `none`);
`if tok:` skips `None` and the empty string, otherwise
`DELETE FROM sessions WHERE token=?`.  Returns the store after the call. -/
def logout (tok : Option String) (db : DB) : DB :=
  match tok with
  | none => db
  | some t =>
    if t = "" then db
    else { db with sessions := db.sessions.filter (fun s => s.token != t) }

/-- Concrete sample store: one user and two sessions, the second bound to a
user id absent from the `users` table; both expire at time 100. -/
def dbA : DB :=
  ⟨[⟨1, "alice", "s$d", 0⟩], [⟨"tokA", 1, 100⟩, ⟨"tokGone", 7, 100⟩]⟩

/-- Concrete sample store: one user, no sessions. -/
def dbB : DB := ⟨[⟨1, "alice", "s$d", 0⟩], []⟩

/-! ### List helper lemmas -/

/-- takeWhile of "not this character" runs up to the first occurrence. -/
theorem takeWhile_bne_append (c : Char) (l r : List Char) (h : c ∉ l) :
    (l ++ c :: r).takeWhile (fun ch => ch != c) = l := by
  induction l with
  | nil => simp
  | cons a t ih =>
    simp only [List.mem_cons, not_or] at h
    have hac : (a != c) = true := bne_iff_ne.mpr (fun e => h.1 e.symm)
    simp [List.takeWhile_cons, hac, ih h.2]

/-- dropWhile of "not this character" stops at the first occurrence. -/
theorem dropWhile_bne_append (c : Char) (l r : List Char) (h : c ∉ l) :
    (l ++ c :: r).dropWhile (fun ch => ch != c) = c :: r := by
  induction l with
  | nil => simp
  | cons a t ih =>
    simp only [List.mem_cons, not_or] at h
    have hac : (a != c) = true := bne_iff_ne.mpr (fun e => h.1 e.symm)
    simp [List.dropWhile_cons, hac, ih h.2]

/-- dropWhile of "not this character" consumes a list free of it entirely. -/
theorem dropWhile_bne_nil (c : Char) (l : List Char) (h : c ∉ l) :
    l.dropWhile (fun ch => ch != c) = [] := by
  induction l with
  | nil => simp
  | cons a t ih =>
    simp only [List.mem_cons, not_or] at h
    have hac : (a != c) = true := bne_iff_ne.mpr (fun e => h.1 e.symm)
    simp [List.dropWhile_cons, hac, ih h.2]

/-- find? skips a prefix in which nothing matches. -/
theorem find?_append_left_none {α : Type} (p : α → Bool) (l l' : List α)
    (h : l.find? p = none) : (l ++ l').find? p = l'.find? p := by
  induction l with
  | nil => simp
  | cons a t ih =>
    rw [List.find?_cons] at h
    rw [List.cons_append, List.find?_cons]
    cases hp : p a with
    | true => simp [hp] at h
    | false => simp only [hp, cond_false] at h ⊢; exact ih h

/-- String append unfolds to list append on the underlying data. -/
theorem string_data_append (s t : String) : (s ++ t).data = s.data ++ t.data := rfl

/-! ### C2: verify after hash -/

/-- C2: for every digest function, every salt free of the separator
character (the salt is drawn from the hex alphabet, which contains no
`'$'`) and every password `p`, `verify(p, hash(p))` returns `True`. -/
theorem C2_verify_hash_roundtrip (H : String → String) (salt pw : String)
    (hs : '$' ∉ salt.data) :
    check_pw H pw (hash_pw H salt pw) = some true := by
  have hdata : (hash_pw H salt pw).data
      = salt.data ++ '$' :: (H (salt ++ pw)).data := by
    simp only [hash_pw, string_data_append, List.append_assoc]
    rfl
  simp only [check_pw, hdata, takeWhile_bne_append '$' _ _ hs,
    dropWhile_bne_append '$' _ _ hs]
  show some (H (salt ++ pw) == H (salt ++ pw)) = some true
  rw [beq_self_eq_true]

/-- Evaluation of C2 at a concrete salt, password and digest function. -/
theorem C2_verify_hash_roundtrip_witness :
    '$' ∉ ("ab12cd34" : String).data ∧
    check_pw (fun s => s) "secret123"
      (hash_pw (fun s => s) "ab12cd34" "secret123") = some true :=
  ⟨by decide, C2_verify_hash_roundtrip (fun s => s) "ab12cd34" "secret123" (by decide)⟩

/-! ### C1: malformed stored form -/

/-- C1 fails on the code: on the separator-free stored form `"deadbeef"`,
`check_pw` raises `ValueError` (the two-name unpacking of a one-element
list), modelled `none`; it does not return `False`. -/
theorem C1_counterexample :
    check_pw (fun s => s) "pw" "deadbeef" = none ∧
    check_pw (fun s => s) "pw" "deadbeef" ≠ some false := by
  refine ⟨rfl, ?_⟩
  decide

/-- C1 amended: for every digest function, every password and every stored
form containing no separator character, `check_pw` raises `ValueError`
(modelled `none`) rather than returning `False`. -/
theorem C1_amended_malformed_raises (H : String → String) (pw stored : String)
    (h : '$' ∉ stored.data) :
    check_pw H pw stored = none := by
  simp only [check_pw, dropWhile_bne_nil '$' _ h]

/-- Evaluation of the amended C1 at a concrete separator-free stored form. -/
theorem C1_amended_malformed_raises_witness :
    '$' ∉ ("cafe0123" : String).data ∧
    check_pw (fun s => s) "hunter2" "cafe0123" = none :=
  ⟨by decide, C1_amended_malformed_raises (fun s => s) "hunter2" "cafe0123" (by decide)⟩

/-! ### C3: lazy expiry with exclusive boundary -/

/-- C3: for a stored session found under a nonempty token, if
`expires < now` the call returns `None` and deletes exactly that session
row; if `expires = now` the call still succeeds and returns the bound
user id (together with that user's name, the owning user row being
present). -/
theorem C3_lazy_expiry (now : Int) (t : String) (db : DB) (s : Session)
    (ht : t ≠ "")
    (hfind : db.sessions.find? (fun r => r.token == t) = some s) :
    (s.expires < now →
      session_get now (some t) db
        = (none, { db with sessions := db.sessions.filter (fun r => r.token != t) }) ∧
      ∀ r ∈ (session_get now (some t) db).2.sessions, r.token ≠ t)
  ∧ (s.expires = now →
      ∀ u, db.users.find? (fun v => v.id == s.user_id) = some u →
      (session_get now (some t) db).1 = some ⟨s.user_id, u.username⟩) := by
  refine ⟨fun hexp => ?_, fun heq u hu => ?_⟩
  · have hrun : session_get now (some t) db
        = (none, { db with sessions := db.sessions.filter (fun r => r.token != t) }) := by
      simp only [session_get, if_neg ht, hfind, if_pos hexp]
    refine ⟨hrun, ?_⟩
    rw [hrun]
    intro r hr
    exact bne_iff_ne.mp (List.mem_filter.mp hr).2
  · have hnotlt : ¬ s.expires < now := by omega
    have hid : u.id = s.user_id := by
      have hp := List.find?_some hu
      simp only [beq_iff_eq] at hp
      exact hp
    simp only [session_get, if_neg ht, hfind, if_neg hnotlt, hu, hid]

/-- Evaluation of C3 on the sample store: at time 200 the session expired
at 100 is removed; at time 100 exactly it still resolves. -/
theorem C3_lazy_expiry_witness :
    session_get 200 (some "tokA") dbA
      = (none, { dbA with sessions := dbA.sessions.filter (fun r => r.token != "tokA") })
  ∧ (session_get 100 (some "tokA") dbA).1 = some ⟨1, "alice"⟩ :=
  ⟨((C3_lazy_expiry 200 "tokA" dbA ⟨"tokA", 1, 100⟩ (by decide) (by decide)).1
      (by decide)).1,
   (C3_lazy_expiry 100 "tokA" dbA ⟨"tokA", 1, 100⟩ (by decide) (by decide)).2
      (by decide) ⟨1, "alice", "s$d", 0⟩ (by decide)⟩

/-! ### C6: create then resolve -/

/-- C6: with a fresh nonempty token, `session_create uid` persists the
session expiring exactly `now + 604800` and returns the token, and an
immediate `session_get` on that token (the owning user row being present)
returns that user's id. -/
theorem C6_create_then_resolve (now : Int) (token : String) (uid : Nat)
    (db : DB) (u : User)
    (htok : token ≠ "")
    (hfresh : db.sessions.any (fun s => s.token == token) = false)
    (huser : db.users.find? (fun v => v.id == uid) = some u) :
    session_create token now uid db
      = some (token,
          { db with sessions := db.sessions ++ [⟨token, uid, now + 604800⟩] })
  ∧ (session_get now (some token)
        { db with sessions := db.sessions ++ [⟨token, uid, now + 604800⟩] }).1
      = some ⟨uid, u.username⟩ := by
  have hnone : db.sessions.find? (fun s => s.token == token) = none := by
    rw [List.find?_eq_none]
    intro x hx hpx
    have hany : db.sessions.any (fun s => s.token == token) = true :=
      List.any_eq_true.mpr ⟨x, hx, hpx⟩
    rw [hfresh] at hany
    cases hany
  constructor
  · simp [session_create, hfresh]
  · have hfind : (db.sessions ++ [(⟨token, uid, now + 604800⟩ : Session)]).find?
        (fun s => s.token == token) = some ⟨token, uid, now + 604800⟩ := by
      rw [find?_append_left_none _ _ _ hnone]
      simp [List.find?]
    have hnexp : ¬ (now + 604800 < now) := by omega
    have hid : u.id = uid := by
      have hp := List.find?_some huser
      simp only [beq_iff_eq] at hp
      exact hp
    simp only [session_get, if_neg htok, hfind, if_neg hnexp, huser, hid]

/-- Evaluation of C6 on the sample store with token `"T"` at time 1000. -/
theorem C6_create_then_resolve_witness :
    session_create "T" 1000 1 dbB
      = some ("T", { dbB with sessions := dbB.sessions ++ [⟨"T", 1, 1000 + 604800⟩] })
  ∧ (session_get 1000 (some "T")
        { dbB with sessions := dbB.sessions ++ [⟨"T", 1, 1000 + 604800⟩] }).1
      = some ⟨1, "alice"⟩ :=
  C6_create_then_resolve 1000 "T" 1 dbB ⟨1, "alice", "s$d", 0⟩
    (by decide) (by decide) (by decide)

/-! ### C7: identity resolution cases -/

/-- C7: `session_get` returns `None` for an absent token, an empty token,
a token with no stored session, and a live session whose user row is
missing; for a live session whose user row exists it returns exactly the
id and username of that user (the `Identity` record carries no password
field). -/
theorem C7_authenticate_cases (now : Int) (db : DB) :
    session_get now none db = (none, db)
  ∧ session_get now (some "") db = (none, db)
  ∧ (∀ t, db.sessions.find? (fun s => s.token == t) = none →
      session_get now (some t) db = (none, db))
  ∧ (∀ t s, t ≠ "" → db.sessions.find? (fun r => r.token == t) = some s →
      ¬ s.expires < now →
      db.users.find? (fun v => v.id == s.user_id) = none →
      session_get now (some t) db = (none, db))
  ∧ (∀ t s u, t ≠ "" → db.sessions.find? (fun r => r.token == t) = some s →
      ¬ s.expires < now →
      db.users.find? (fun v => v.id == s.user_id) = some u →
      (session_get now (some t) db).1 = some ⟨u.id, u.username⟩) := by
  refine ⟨rfl, rfl, fun t h => ?_, fun t s ht hs hn hu => ?_, fun t s u ht hs hn hu => ?_⟩
  · by_cases ht : t = ""
    · subst ht; rfl
    · simp only [session_get, if_neg ht, h]
  · simp only [session_get, if_neg ht, hs, if_neg hn, hu]
  · simp only [session_get, if_neg ht, hs, if_neg hn, hu]

/-- Evaluation of C7 on the sample store at time 50: unknown token, live
session with a missing user, live session with its user present. -/
theorem C7_authenticate_cases_witness :
    session_get 50 (some "nope") dbA = (none, dbA)
  ∧ session_get 50 (some "tokGone") dbA = (none, dbA)
  ∧ (session_get 50 (some "tokA") dbA).1 = some ⟨1, "alice"⟩ :=
  ⟨(C7_authenticate_cases 50 dbA).2.2.1 "nope" (by decide),
   (C7_authenticate_cases 50 dbA).2.2.2.1 "tokGone" ⟨"tokGone", 7, 100⟩
     (by decide) (by decide) (by decide) (by decide),
   (C7_authenticate_cases 50 dbA).2.2.2.2 "tokA" ⟨"tokA", 1, 100⟩ ⟨1, "alice", "s$d", 0⟩
     (by decide) (by decide) (by decide) (by decide)⟩

/-! ### C9: authenticate frame property -/

/-- C9: `session_get` leaves the store exactly unchanged for an absent
token, an empty token, an unknown token, and a present unexpired session
(whether or not the user row exists); only the expired branch mutates. -/
theorem C9_authenticate_frame (now : Int) (db : DB) :
    (session_get now none db).2 = db
  ∧ (session_get now (some "") db).2 = db
  ∧ (∀ t, db.sessions.find? (fun s => s.token == t) = none →
      (session_get now (some t) db).2 = db)
  ∧ (∀ t s, db.sessions.find? (fun r => r.token == t) = some s →
      ¬ s.expires < now → (session_get now (some t) db).2 = db) := by
  refine ⟨rfl, rfl, fun t h => ?_, fun t s h hn => ?_⟩
  · by_cases ht : t = ""
    · subst ht; rfl
    · simp only [session_get, if_neg ht, h]
  · by_cases ht : t = ""
    · subst ht; rfl
    · simp only [session_get, if_neg ht, h, if_neg hn]
      cases db.users.find? (fun v => v.id == s.user_id) <;> rfl

/-- Evaluation of C9 on the sample store at time 50. -/
theorem C9_authenticate_frame_witness :
    (session_get 50 (some "nope") dbA).2 = dbA
  ∧ (session_get 50 (some "tokA") dbA).2 = dbA :=
  ⟨(C9_authenticate_frame 50 dbA).2.2.1 "nope" (by decide),
   (C9_authenticate_frame 50 dbA).2.2.2 "tokA" ⟨"tokA", 1, 100⟩ (by decide) (by decide)⟩

/-! ### C8: revoke -/

/-- C8: for a nonempty token, `logout` removes every session row carrying
that token, leaves users and all other sessions in place, is a no-op when
no session carries the token, and is idempotent. -/
theorem C8_revoke_idempotent (t : String) (db : DB) (ht : t ≠ "") :
    (∀ s ∈ (logout (some t) db).sessions, s.token ≠ t)
  ∧ (logout (some t) db).users = db.users
  ∧ (∀ s ∈ db.sessions, s.token ≠ t → s ∈ (logout (some t) db).sessions)
  ∧ ((∀ s ∈ db.sessions, s.token ≠ t) → logout (some t) db = db)
  ∧ logout (some t) (logout (some t) db) = logout (some t) db := by
  have hlog : ∀ d : DB, logout (some t) d
      = { d with sessions := d.sessions.filter (fun s => s.token != t) } := by
    intro d
    simp only [logout, if_neg ht]
  refine ⟨?_, ?_, ?_, ?_, ?_⟩
  · rw [hlog]
    intro s hs
    exact bne_iff_ne.mp (List.mem_filter.mp hs).2
  · rw [hlog]
  · rw [hlog]
    intro s hs hne
    exact List.mem_filter.mpr ⟨hs, bne_iff_ne.mpr hne⟩
  · intro hall
    rw [hlog]
    have hfix : db.sessions.filter (fun s => s.token != t) = db.sessions :=
      List.filter_eq_self.mpr (fun s hs => bne_iff_ne.mpr (hall s hs))
    rw [hfix]
  · rw [hlog db, hlog]
    have hfix : (db.sessions.filter (fun s => s.token != t)).filter
        (fun s => s.token != t) = db.sessions.filter (fun s => s.token != t) :=
      List.filter_eq_self.mpr (fun s hs => (List.mem_filter.mp hs).2)
    dsimp only
    rw [hfix]

/-- Evaluation of C8 on the sample store: revoking an unknown token is a
no-op, and revoking twice equals revoking once. -/
theorem C8_revoke_idempotent_witness :
    logout (some "nope") dbA = dbA
  ∧ logout (some "tokA") (logout (some "tokA") dbA) = logout (some "tokA") dbA :=
  ⟨(C8_revoke_idempotent "nope" dbA (by decide)).2.2.2.1 (by decide),
   (C8_revoke_idempotent "tokA" dbA (by decide)).2.2.2.2⟩

/-! ### C4: duplicate username -/

/-- C4: when a user with the submitted (stripped, nonempty) username
already exists and the password is nonempty, `signup` answers
"Username taken." and the store — in particular the existing user's row
and its password hash — is exactly unchanged. -/
theorem C4_duplicate_username (H : String → String) (salt token : String)
    (nowU nowS : Int) (usernameIn pw : String) (db : DB) (u : User)
    (hu : u ∈ db.users) (hname : u.username = strip usernameIn)
    (hne : strip usernameIn ≠ "") (hpw : pw ≠ "") :
    signup_post H salt token nowU nowS usernameIn pw db
      = some (.usernameTaken, db) := by
  have hany : db.users.any (fun v => v.username == strip usernameIn) = true :=
    List.any_eq_true.mpr ⟨u, hu, by simp [hname]⟩
  have hnotor : ¬ (strip usernameIn = "" ∨ pw = "") := by
    rintro (h | h)
    exacts [hne h, hpw h]
  simp [signup_post, hnotor, hany]

/-- Evaluation of C4: registering `"alice"` again on the sample store. -/
theorem C4_duplicate_username_witness :
    signup_post (fun s => s) "ab" "tk" 10 11 "alice" "pw2" dbB
      = some (.usernameTaken, dbB) :=
  C4_duplicate_username (fun s => s) "ab" "tk" 10 11 "alice" "pw2" dbB
    ⟨1, "alice", "s$d", 0⟩ (by decide) (by decide) (by decide) (by decide)

/-! ### C10: signup field validation -/

/-- C10: a signup whose stripped username is empty or whose password is
empty answers "All fields required." and leaves the store unchanged — no
user row and no session row is created. -/
theorem C10_signup_validation (H : String → String) (salt token : String)
    (nowU nowS : Int) (usernameIn pw : String) (db : DB)
    (h : strip usernameIn = "" ∨ pw = "") :
    signup_post H salt token nowU nowS usernameIn pw db
      = some (.fieldsRequired, db) := by
  simp only [signup_post, if_pos h]

/-- Evaluation of C10 at a whitespace username and at an empty password. -/
theorem C10_signup_validation_witness :
    signup_post (fun s => s) "ab" "tk" 10 11 "   " "pw" dbB
      = some (.fieldsRequired, dbB)
  ∧ signup_post (fun s => s) "ab" "tk" 10 11 "bob" "" dbB
      = some (.fieldsRequired, dbB) :=
  ⟨C10_signup_validation (fun s => s) "ab" "tk" 10 11 "   " "pw" dbB (Or.inl (by decide)),
   C10_signup_validation (fun s => s) "ab" "tk" 10 11 "bob" "" dbB (Or.inr rfl)⟩

/-! ### C5: credential failure indistinguishability -/

/-- C5: a login with an unknown username and a login with a known username
but a non-matching password produce the same observable outcome: the
"Invalid credentials." page with the store untouched. -/
theorem C5_login_indistinguishable (H : String → String)
    (token1 token2 : String) (now1 now2 : Int) (db : DB)
    (username1 pw1 username2 pw2 : String) (u : User)
    (h1 : db.users.find? (fun v => v.username == username1) = none)
    (h2 : db.users.find? (fun v => v.username == username2) = some u)
    (h3 : check_pw H pw2 u.password = some false) :
    login_post H token1 now1 username1 pw1 db = some (.invalidCredentials, db)
  ∧ login_post H token2 now2 username2 pw2 db = some (.invalidCredentials, db) := by
  constructor
  · simp only [login_post, h1]
  · simp only [login_post, h2, h3]

/-- Evaluation of C5 on the sample store: unknown user `"bob"` and known
user `"alice"` with a wrong password get the same answer. -/
theorem C5_login_indistinguishable_witness :
    login_post (fun s => s) "tk1" 5 "bob" "x" dbB = some (.invalidCredentials, dbB)
  ∧ login_post (fun s => s) "tk2" 5 "alice" "wrong" dbB
      = some (.invalidCredentials, dbB) :=
  C5_login_indistinguishable (fun s => s) "tk1" "tk2" 5 5 dbB "bob" "x" "alice" "wrong"
    ⟨1, "alice", "s$d", 0⟩ (by decide) (by decide) (by decide)
